import Mathlib

/-
Shallow embedding of the `credly` Go package (isovalent/credly-go).

The package is a thin client for the Credly HTTP API: a `Client` holding a
pre-encoded Basic-auth token and an organization id, a dispatcher `Client.Do`
that stamps three headers onto every request, and five resource operations
(`IssueBadge`, `GetBadges`, `GetBadge`, `GetBadgeTemplate`,
`GetBadgeTemplates`) that build a URL, dispatch a request and decode a JSON
`data` envelope.

Modelling conventions:
  * Bytes are `Nat` values `< 256`; strings are converted to UTF-8 byte lists
    by an explicit encoder (`strBytes`).
  * `base64.StdEncoding.EncodeToString` and `url.QueryEscape` from the Go
    standard library are embedded byte-for-byte (`base64Encode`,
    `queryEscape`).
  * The HTTP transport (`HTTPClientInterface`) is an arbitrary function
    `Request → Except String Response`, mirroring Go's
    `Do(req) (*http.Response, error)`.
  * Response bodies carry either a parsed JSON value or a marker that the
    bytes are not well-formed JSON (`Body.malformed` with the tokenizer's
    error text); `encoding/json` decoding into the envelope structs is
    embedded following Go semantics (null leaves the zero value, unknown
    keys are skipped, struct-field names match case-insensitively,
    type mismatch is an error).  `time.Time` is abstracted as the RFC3339
    string it was decoded from (`GoTime`); its parse validation is not
    modelled since no property depends on it.
  * Each operation returns `result × Option String × Option BodyTrace`:
    the Go value result, the Go `error` (`none` = nil), and a trace of what
    happened to the response body (`none` when the transport itself failed
    and no response was ever obtained).  `BodyTrace.closed` records that
    `defer resp.Body.Close()` ran on the exit path; `BodyTrace.read` records
    whether any read of the body (the JSON decode) was performed on that
    path.
  * The issuance timestamp (`time.Now()` formatted) is passed in as the
    already-formatted string `issuedAt`, abstracting the wall clock.
-/

/-! ### JSON values and response bodies -/

inductive Json where
  | null : Json
  | str : String → Json
  | num : Int → Json
  | boolean : Bool → Json
  | arr : List Json → Json
  | obj : List (String × Json) → Json

/-- A response body: either bytes that parse as one JSON value, or bytes
that are not well-formed JSON (carrying the parse error's text). -/
inductive Body where
  | json : Json → Body
  | malformed : String → Body

/-! ### UTF-8 bytes, base64 (Go `encoding/base64` StdEncoding) and
    `url.QueryEscape` (Go `net/url`) -/

/-- UTF-8 encoding of one character, as bytes (each `< 256`). -/
def utf8Bytes (c : Char) : List Nat :=
  let n := c.toNat
  if n < 0x80 then [n]
  else if n < 0x800 then [0xC0 + n / 64, 0x80 + n % 64]
  else if n < 0x10000 then [0xE0 + n / 4096, 0x80 + (n / 64) % 64, 0x80 + n % 64]
  else [0xF0 + n / 262144, 0x80 + (n / 4096) % 64, 0x80 + (n / 64) % 64, 0x80 + n % 64]

/-- The UTF-8 bytes of a string (Go `[]byte(s)`). -/
def strBytes (s : String) : List Nat :=
  (s.data.map utf8Bytes).flatten

/-- The standard base64 alphabet. -/
def b64Table : List Char :=
  "ABCDEFGHIJKLMNOPQRSTUVWXYZabcdefghijklmnopqrstuvwxyz0123456789+/".data

def b64Char (n : Nat) : Char := b64Table.getD n 'A'

/-- Go `base64.StdEncoding.EncodeToString`: 3 bytes → 4 alphabet chars,
with `=` padding on a 1- or 2-byte tail. -/
def base64Encode : List Nat → String
  | [] => ""
  | [a] =>
      String.mk [b64Char (a / 4), b64Char ((a % 4) * 16), '=', '=']
  | [a, b] =>
      String.mk [b64Char (a / 4), b64Char ((a % 4) * 16 + b / 16),
                 b64Char ((b % 16) * 4), '=']
  | a :: b :: c :: rest =>
      String.mk [b64Char (a / 4), b64Char ((a % 4) * 16 + b / 16),
                 b64Char ((b % 16) * 4 + c / 64), b64Char (c % 64)]
        ++ base64Encode rest

/-- Bytes Go's `url.QueryEscape` leaves unescaped: alphanumerics and
`-`, `_`, `.`, `~`. -/
def isUnreservedByte (b : Nat) : Bool :=
  (65 ≤ b && b ≤ 90) || (97 ≤ b && b ≤ 122) || (48 ≤ b && b ≤ 57) ||
  b == 45 || b == 95 || b == 46 || b == 126

def hexDigit (n : Nat) : Char := "0123456789ABCDEF".data.getD n '0'

/-- How `url.QueryEscape` renders one byte: space → `+`, unreserved bytes
kept, everything else percent-encoded in uppercase hex. -/
def escByte (b : Nat) : String :=
  if b == 32 then "+"
  else if isUnreservedByte b then String.mk [Char.ofNat b]
  else String.mk ['%', hexDigit (b / 16), hexDigit (b % 16)]

def strConcat : List String → String
  | [] => ""
  | s :: rest => s ++ strConcat rest

/-- Go `url.QueryEscape`. -/
def queryEscape (s : String) : String :=
  strConcat ((strBytes s).map escByte)

/-! ### Requests, responses, headers, client -/

structure Request where
  method : String
  url : String
  body : Option Json
  headers : List (String × String)

structure Response where
  statusCode : Nat
  body : Body

/-- `http.Header.Set`: replace any existing value for the key with the
single new value (the header is a map; the list is kept duplicate-free
per key). -/
def setHeader (hs : List (String × String)) (k v : String) :
    List (String × String) :=
  (k, v) :: hs.filter (fun p => p.1 != k)

/-- Look up a header value (`http.Header.Get`). -/
def headerGet (hs : List (String × String)) (k : String) : Option String :=
  (hs.find? (fun p => p.1 == k)).map (fun p => p.2)

/-- `Client` from client.go: transport, pre-encoded auth token,
organization id. -/
structure Client where
  HTTPClient : Request → Except String Response
  authToken : String
  OrganizationId : String

/-- `ErrBadgeAlreadyIssued` from client.go. -/
def ErrBadgeAlreadyIssued : String := "User already has this badge"

/-- `NewClient` from client.go: base64-encode `token + "|"` once and store
it.  The default `http.Client{}` transport is abstracted as a transport
parameter (its network behavior is outside the model). -/
def NewClient (token organizationId : String)
    (transport : Request → Except String Response) : Client :=
  { HTTPClient := transport
    authToken := base64Encode (strBytes (token ++ "|"))
    OrganizationId := organizationId }

/-- The request as it reaches the transport from `Client.Do`: the three
`Header.Set` calls applied, everything else untouched. -/
def dispatchedRequest (c : Client) (req : Request) : Request :=
  { req with
      headers :=
        setHeader
          (setHeader
            (setHeader req.headers "Authorization" ("Basic " ++ c.authToken))
            "Content-Type" "application/json")
          "Accept" "application/json" }

/-- `Client.Do` from client.go: set the three headers, delegate to the
transport, return its response and error verbatim. -/
def Client.Do (c : Client) (req : Request) : Except String Response :=
  c.HTTPClient (dispatchedRequest c req)

/-! ### Data model: badge_template.go and badge.go record types -/

/-- `BadgeTemplate` from badge_template.go. -/
structure BadgeTemplate where
  Id : String
  Name : String
  Skills : List String
  Url : String
  ImageUrl : String
  VanitySlug : String
deriving DecidableEq, Repr

def BadgeTemplate.zero : BadgeTemplate :=
  { Id := "", Name := "", Skills := [], Url := "", ImageUrl := "", VanitySlug := "" }

/-- `time.Time` abstracted as the RFC3339 string it was decoded from; the
Go zero time renders as below. -/
structure GoTime where
  rfc3339 : String
deriving DecidableEq, Repr

def GoTime.zero : GoTime := { rfc3339 := "0001-01-01T00:00:00Z" }

/-- The anonymous `Image struct { Url string }` nested in `BadgeInfo`. -/
structure BadgeImage where
  Url : String
deriving DecidableEq, Repr

def BadgeImage.zero : BadgeImage := { Url := "" }

/-- The anonymous `User struct { ... }` nested in `BadgeInfo`. -/
structure BadgeUser where
  Id : String
  Email : String
  FirstName : String
  LastName : String
  Url : String
deriving DecidableEq, Repr

def BadgeUser.zero : BadgeUser :=
  { Id := "", Email := "", FirstName := "", LastName := "", Url := "" }

/-- `BadgeInfo` from badge.go. -/
structure BadgeInfo where
  Id : String
  ImageUrl : String
  Url : String
  IssuedAt : GoTime
  State : String
  Image : BadgeImage
  Template : BadgeTemplate
  User : BadgeUser
deriving DecidableEq, Repr

def BadgeInfo.zero : BadgeInfo :=
  { Id := "", ImageUrl := "", Url := "", IssuedAt := GoTime.zero, State := "",
    Image := BadgeImage.zero, Template := BadgeTemplate.zero,
    User := BadgeUser.zero }

/-- `issueBadgeResponse` from badge.go. -/
structure issueBadgeResponse where
  Data : BadgeInfo
deriving DecidableEq, Repr

/-- `getBadgesResponse` from badge.go. -/
structure getBadgesResponse where
  Data : List BadgeInfo
deriving DecidableEq, Repr

/-- `getBadgeTemplateResponse` from badge_template.go. -/
structure getBadgeTemplateResponse where
  Data : BadgeTemplate
deriving DecidableEq, Repr

/-- `getBadgeTemplatesResponse` from badge_template.go. -/
structure getBadgeTemplatesResponse where
  Data : List BadgeTemplate
deriving DecidableEq, Repr

/-! ### `encoding/json` decoding into the envelope structs

Go semantics embedded: JSON `null` leaves the target at its zero value;
an object decodes field-by-field, matching struct tags case-insensitively,
skipping unknown keys, with a later duplicate key overriding an earlier
one; any other JSON kind against a struct/string/slice target is a type
error. -/

/-- ASCII lower-casing of one character. -/
def foldChar (c : Char) : Char :=
  if 65 ≤ c.toNat ∧ c.toNat ≤ 90 then Char.ofNat (c.toNat + 32) else c

/-- Case-insensitive key-to-tag match (Go matches field names with
`strings.EqualFold` when no exact-case match exists; the struct tags
here are all ASCII, so ASCII folding coincides with Go's folding). -/
def keyIs (k tag : String) : Bool :=
  k.data.map foldChar == tag.data.map foldChar

def decodeGoString : Json → Except String String
  | Json.null => Except.ok ""
  | Json.str s => Except.ok s
  | _ => Except.error "json: cannot unmarshal value into Go value of type string"

def decodeGoTime : Json → Except String GoTime
  | Json.null => Except.ok GoTime.zero
  | Json.str s => Except.ok { rfc3339 := s }
  | _ => Except.error "json: cannot unmarshal value into Go value of type time.Time"

def decodeStringList : Json → Except String (List String)
  | Json.null => Except.ok []
  | Json.arr xs => xs.mapM decodeGoString
  | _ => Except.error "json: cannot unmarshal value into Go value of type []string"

def applyBadgeTemplateField (t : BadgeTemplate) (k : String) (v : Json) :
    Except String BadgeTemplate :=
  if keyIs k "id" then do
    let s ← decodeGoString v; Except.ok { t with Id := s }
  else if keyIs k "name" then do
    let s ← decodeGoString v; Except.ok { t with Name := s }
  else if keyIs k "skills" then do
    let s ← decodeStringList v; Except.ok { t with Skills := s }
  else if keyIs k "url" then do
    let s ← decodeGoString v; Except.ok { t with Url := s }
  else if keyIs k "image_url" then do
    let s ← decodeGoString v; Except.ok { t with ImageUrl := s }
  else if keyIs k "vanity_slug" then do
    let s ← decodeGoString v; Except.ok { t with VanitySlug := s }
  else Except.ok t

def decodeBadgeTemplate : Json → Except String BadgeTemplate
  | Json.null => Except.ok BadgeTemplate.zero
  | Json.obj fields =>
      fields.foldlM (fun t kv => applyBadgeTemplateField t kv.1 kv.2)
        BadgeTemplate.zero
  | _ => Except.error "json: cannot unmarshal value into Go value of type credly.BadgeTemplate"

def applyBadgeImageField (t : BadgeImage) (k : String) (v : Json) :
    Except String BadgeImage :=
  if keyIs k "url" then do
    let s ← decodeGoString v; Except.ok { t with Url := s }
  else Except.ok t

def decodeBadgeImage : Json → Except String BadgeImage
  | Json.null => Except.ok BadgeImage.zero
  | Json.obj fields =>
      fields.foldlM (fun t kv => applyBadgeImageField t kv.1 kv.2)
        BadgeImage.zero
  | _ => Except.error "json: cannot unmarshal value into Go value of type struct"

def applyBadgeUserField (t : BadgeUser) (k : String) (v : Json) :
    Except String BadgeUser :=
  if keyIs k "id" then do
    let s ← decodeGoString v; Except.ok { t with Id := s }
  else if keyIs k "email" then do
    let s ← decodeGoString v; Except.ok { t with Email := s }
  else if keyIs k "first_name" then do
    let s ← decodeGoString v; Except.ok { t with FirstName := s }
  else if keyIs k "last_name" then do
    let s ← decodeGoString v; Except.ok { t with LastName := s }
  else if keyIs k "url" then do
    let s ← decodeGoString v; Except.ok { t with Url := s }
  else Except.ok t

def decodeBadgeUser : Json → Except String BadgeUser
  | Json.null => Except.ok BadgeUser.zero
  | Json.obj fields =>
      fields.foldlM (fun t kv => applyBadgeUserField t kv.1 kv.2)
        BadgeUser.zero
  | _ => Except.error "json: cannot unmarshal value into Go value of type struct"

def applyBadgeInfoField (t : BadgeInfo) (k : String) (v : Json) :
    Except String BadgeInfo :=
  if keyIs k "id" then do
    let s ← decodeGoString v; Except.ok { t with Id := s }
  else if keyIs k "image_url" then do
    let s ← decodeGoString v; Except.ok { t with ImageUrl := s }
  else if keyIs k "badge_url" then do
    let s ← decodeGoString v; Except.ok { t with Url := s }
  else if keyIs k "issued_at" then do
    let s ← decodeGoTime v; Except.ok { t with IssuedAt := s }
  else if keyIs k "state" then do
    let s ← decodeGoString v; Except.ok { t with State := s }
  else if keyIs k "image" then do
    let s ← decodeBadgeImage v; Except.ok { t with Image := s }
  else if keyIs k "badge_template" then do
    let s ← decodeBadgeTemplate v; Except.ok { t with Template := s }
  else if keyIs k "user" then do
    let s ← decodeBadgeUser v; Except.ok { t with User := s }
  else Except.ok t

def decodeBadgeInfo : Json → Except String BadgeInfo
  | Json.null => Except.ok BadgeInfo.zero
  | Json.obj fields =>
      fields.foldlM (fun t kv => applyBadgeInfoField t kv.1 kv.2)
        BadgeInfo.zero
  | _ => Except.error "json: cannot unmarshal value into Go value of type credly.BadgeInfo"

def decodeBadgeInfoList : Json → Except String (List BadgeInfo)
  | Json.null => Except.ok []
  | Json.arr xs => xs.mapM decodeBadgeInfo
  | _ => Except.error "json: cannot unmarshal value into Go value of type []credly.BadgeInfo"

def decodeBadgeTemplateList : Json → Except String (List BadgeTemplate)
  | Json.null => Except.ok []
  | Json.arr xs => xs.mapM decodeBadgeTemplate
  | _ => Except.error "json: cannot unmarshal value into Go value of type []credly.BadgeTemplate"

/-- Decode a `data` envelope: the body must be well-formed JSON; `null`
or an object is accepted at top level, the `data` key (if present) is
decoded by `dec`, other keys are ignored. -/
def decodeEnvelope (zero : α) (dec : Json → Except String α) :
    Body → Except String α
  | Body.malformed m => Except.error m
  | Body.json Json.null => Except.ok zero
  | Body.json (Json.obj fields) =>
      fields.foldlM
        (fun acc kv =>
          if keyIs kv.1 "data" then dec kv.2 else Except.ok acc) zero
  | Body.json _ => Except.error "json: cannot unmarshal value into Go struct"

def decodeIssueBadgeResponse (b : Body) : Except String issueBadgeResponse :=
  (decodeEnvelope BadgeInfo.zero decodeBadgeInfo b).map
    (fun d => { Data := d })

def decodeGetBadgesResponse (b : Body) : Except String getBadgesResponse :=
  (decodeEnvelope [] decodeBadgeInfoList b).map (fun d => { Data := d })

def decodeGetBadgeTemplateResponse (b : Body) :
    Except String getBadgeTemplateResponse :=
  (decodeEnvelope BadgeTemplate.zero decodeBadgeTemplate b).map
    (fun d => { Data := d })

def decodeGetBadgeTemplatesResponse (b : Body) :
    Except String getBadgeTemplatesResponse :=
  (decodeEnvelope [] decodeBadgeTemplateList b).map (fun d => { Data := d })

/-! ### Resource operations

Each Go method returns `(value, err)`; the embedding additionally returns
an `Option BodyTrace` recording what happened to the response body once
the dispatcher produced one (`none` = the dispatcher returned an error
and there was no body). -/

structure BodyTrace where
  read : Bool
  closed : Bool
deriving DecidableEq, Repr

/-- URL built by `IssueBadge` (fmt.Sprintf with the organization id). -/
def issueBadgeUrl (c : Client) : String :=
  "https://api.credly.com/v1/organizations/" ++ c.OrganizationId ++ "/badges"

/-- The `params` map marshalled into the `IssueBadge` request body
(`json.Marshal` emits map keys in sorted order). -/
def issueBadgeParams (templateId email firstName lastName issuedAt : String) :
    Json :=
  Json.obj
    [("badge_template_id", Json.str templateId),
     ("issued_at", Json.str issuedAt),
     ("issued_to_first_name", Json.str firstName),
     ("issued_to_last_name", Json.str lastName),
     ("recipient_email", Json.str email)]

/-- The code of `IssueBadge` after `c.Do(req)` returns: the deferred
`resp.Body.Close()` covers every exit below, the 422 check comes before
the `!= 201` check, and only the decode path reads the body. -/
def issueBadgeHandle (r : Except String Response) :
    BadgeInfo × Option String × Option BodyTrace :=
  match r with
  | Except.error e => (BadgeInfo.zero, some e, none)
  | Except.ok resp =>
    if resp.statusCode = 422 then
      (BadgeInfo.zero, some ErrBadgeAlreadyIssued,
        some { read := false, closed := true })
    else if resp.statusCode ≠ 201 then
      (BadgeInfo.zero,
        some ("[credly.IssueBadge] API request failed with status code: "
          ++ toString resp.statusCode),
        some { read := false, closed := true })
    else
      match decodeIssueBadgeResponse resp.body with
      | Except.error e =>
          (BadgeInfo.zero,
            some ("[credly.IssueBadge] Failed to parse JSON data: " ++ e),
            some { read := true, closed := true })
      | Except.ok badgeResp =>
          (badgeResp.Data, none, some { read := true, closed := true })

/-- `Client.IssueBadge` from badge.go.  `issuedAt` is the
`time.Now().Format("2006-01-02 15:04:05 -0700")` string, passed in to
abstract the wall clock. -/
def IssueBadge (c : Client) (templateId email firstName lastName : String)
    (issuedAt : String) : BadgeInfo × Option String × Option BodyTrace :=
  issueBadgeHandle (c.Do
    { method := "POST", url := issueBadgeUrl c,
      body := some (issueBadgeParams templateId email firstName lastName issuedAt),
      headers := [] })

/-- URL built by `GetBadges`: the email is `url.QueryEscape`d, and when
collections are present the whole pipe-prefixed reporting-tags clause is
escaped as one string appended to the query. -/
def getBadgesUrl (c : Client) (email : String) (collections : List String) :
    String :=
  let qUrl := "https://api.credly.com/v1/organizations/" ++ c.OrganizationId
    ++ "/badges" ++ "?filter=recipient_email_all::" ++ queryEscape email
  if collections.length > 0 then
    qUrl ++ queryEscape
      ("|badge_templates[reporting_tags]::" ++ String.intercalate "," collections)
  else
    qUrl

/-- The code of `GetBadges` after `c.Do(req)` returns. -/
def getBadgesHandle (r : Except String Response) :
    List BadgeInfo × Option String × Option BodyTrace :=
  match r with
  | Except.error e => ([], some e, none)
  | Except.ok resp =>
    if resp.statusCode ≠ 200 then
      ([],
        some ("[credly.GetBadges] API request failed with status code: "
          ++ toString resp.statusCode),
        some { read := false, closed := true })
    else
      match decodeGetBadgesResponse resp.body with
      | Except.error e =>
          ([], some ("[credly.GetBadges] Failed to parse JSON data: " ++ e),
            some { read := true, closed := true })
      | Except.ok badgesResp =>
          (badgesResp.Data, none, some { read := true, closed := true })

/-- `Client.GetBadges` from badge.go. -/
def GetBadges (c : Client) (email : String) (collections : List String) :
    List BadgeInfo × Option String × Option BodyTrace :=
  getBadgesHandle (c.Do
    { method := "GET", url := getBadgesUrl c email collections,
      body := none, headers := [] })

/-- URL built by `GetBadge`: email and badge id are interpolated raw,
with no `url.QueryEscape` call. -/
def getBadgeUrl (c : Client) (email badgeId : String) : String :=
  "https://api.credly.com/v1/organizations/" ++ c.OrganizationId ++ "/badges"
    ++ "?filter=recipient_email_all::" ++ email
    ++ "|badge_template_id::" ++ badgeId

/-- The code of `GetBadge` after `c.Do(req)` returns: no status-code
check; the decode-failure message has no `[credly.GetBadge]` prefix; an
empty decoded list returns the zero `BadgeInfo` with nil error. -/
def getBadgeHandle (r : Except String Response) :
    BadgeInfo × Option String × Option BodyTrace :=
  match r with
  | Except.error e => (BadgeInfo.zero, some e, none)
  | Except.ok resp =>
    match decodeGetBadgesResponse resp.body with
    | Except.error e =>
        (BadgeInfo.zero, some ("Failed to parse JSON data: " ++ e),
          some { read := true, closed := true })
    | Except.ok badgesResp =>
        match badgesResp.Data with
        | [] => (BadgeInfo.zero, none, some { read := true, closed := true })
        | x :: _ => (x, none, some { read := true, closed := true })

/-- `Client.GetBadge` from badge.go. -/
def GetBadge (c : Client) (email badgeId : String) :
    BadgeInfo × Option String × Option BodyTrace :=
  getBadgeHandle (c.Do
    { method := "GET", url := getBadgeUrl c email badgeId,
      body := none, headers := [] })

/-- URL built by `GetBadgeTemplate` (template id interpolated raw). -/
def getBadgeTemplateUrl (c : Client) (templateId : String) : String :=
  "https://api.credly.com/v1/organizations/" ++ c.OrganizationId
    ++ "/badge_templates/" ++ templateId

/-- The code of `GetBadgeTemplate` after `c.Do(req)` returns. -/
def getBadgeTemplateHandle (r : Except String Response) :
    BadgeTemplate × Option String × Option BodyTrace :=
  match r with
  | Except.error e => (BadgeTemplate.zero, some e, none)
  | Except.ok resp =>
    if resp.statusCode ≠ 200 then
      (BadgeTemplate.zero,
        some ("[credly.GetBadgeTemplate] API request failed with status code: "
          ++ toString resp.statusCode),
        some { read := false, closed := true })
    else
      match decodeGetBadgeTemplateResponse resp.body with
      | Except.error e =>
          (BadgeTemplate.zero,
            some ("[credly.GetBadgeTemplate] Failed to parse JSON data: " ++ e),
            some { read := true, closed := true })
      | Except.ok badgeResp =>
          (badgeResp.Data, none, some { read := true, closed := true })

/-- `Client.GetBadgeTemplate` from badge_template.go. -/
def GetBadgeTemplate (c : Client) (templateId : String) :
    BadgeTemplate × Option String × Option BodyTrace :=
  getBadgeTemplateHandle (c.Do
    { method := "GET", url := getBadgeTemplateUrl c templateId,
      body := none, headers := [] })

/-- URL built by `GetBadgeTemplates`. -/
def getBadgeTemplatesUrl (c : Client) : String :=
  "https://api.credly.com/v1/organizations/" ++ c.OrganizationId
    ++ "/badge_templates"

/-- The code of `GetBadgeTemplates` after `c.Do(req)` returns. -/
def getBadgeTemplatesHandle (r : Except String Response) :
    List BadgeTemplate × Option String × Option BodyTrace :=
  match r with
  | Except.error e => ([], some e, none)
  | Except.ok resp =>
    if resp.statusCode ≠ 200 then
      ([],
        some ("[credly.GetBadgeTemplates] API request failed with status code: "
          ++ toString resp.statusCode),
        some { read := false, closed := true })
    else
      match decodeGetBadgeTemplatesResponse resp.body with
      | Except.error e =>
          ([], some ("[credly.GetBadgeTemplates] Failed to parse JSON data: " ++ e),
            some { read := true, closed := true })
      | Except.ok badgeResp =>
          (badgeResp.Data, none, some { read := true, closed := true })

/-- `Client.GetBadgeTemplates` from badge_template.go. -/
def GetBadgeTemplates (c : Client) :
    List BadgeTemplate × Option String × Option BodyTrace :=
  getBadgeTemplatesHandle (c.Do
    { method := "GET", url := getBadgeTemplatesUrl c,
      body := none, headers := [] })

/-! ### Helper definitions and lemmas -/

/-- Substring test on character lists (used to state what an error
message does or does not contain). -/
def containsSubList (needle : List Char) : List Char → Bool
  | [] => needle.isEmpty
  | c :: t => needle.isPrefixOf (c :: t) || containsSubList needle t

/-- `strings.Contains`: does `hay` contain `needle` as a substring? -/
def containsStr (hay needle : String) : Bool :=
  containsSubList needle.data hay.data

/-! ### Witness fixtures: concrete requests, responses and clients -/

def reqW : Request :=
  { method := "POST", url := "https://example.com", body := none,
    headers := [("X-Test", "1")] }

def clientW : Client :=
  { HTTPClient := fun _ => Except.error "network down",
    authToken := "tok123", OrganizationId := "org-1" }

/-- A client whose transport always returns the given response. -/
def constClient (resp : Response) : Client :=
  { HTTPClient := fun _ => Except.ok resp,
    authToken := "tok123", OrganizationId := "org-1" }

/-- A JSON object decoding to a badge with id `badge-123`, state
`issued`. -/
def sampleBadgeJson : Json :=
  Json.obj [("id", Json.str "badge-123"), ("state", Json.str "issued")]

def sampleBadge : BadgeInfo :=
  { BadgeInfo.zero with Id := "badge-123", State := "issued" }

def sampleTemplateJson : Json :=
  Json.obj [("id", Json.str "template-123"), ("name", Json.str "Test Badge")]

def sampleTemplate : BadgeTemplate :=
  { BadgeTemplate.zero with Id := "template-123", Name := "Test Badge" }

def resp201W : Response :=
  { statusCode := 201, body := Body.json (Json.obj [("data", sampleBadgeJson)]) }

def resp422W : Response :=
  { statusCode := 422, body := Body.json Json.null }

def resp500W : Response :=
  { statusCode := 500, body := Body.json Json.null }


def resp404EmptyW : Response :=
  { statusCode := 404, body := Body.json (Json.obj [("data", Json.arr [])]) }

def resp500ListW : Response :=
  { statusCode := 500,
    body := Body.json (Json.obj [("data", Json.arr [sampleBadgeJson])]) }

def respMalformedW : Response :=
  { statusCode := 200, body := Body.malformed "invalid character" }

def respMalformed201W : Response :=
  { statusCode := 201, body := Body.malformed "invalid character" }

def resp200BadgesW : Response :=
  { statusCode := 200,
    body := Body.json (Json.obj
      [("data", Json.arr [sampleBadgeJson,
          Json.obj [("id", Json.str "badge-456")]])]) }

def sampleBadge2 : BadgeInfo := { BadgeInfo.zero with Id := "badge-456" }

def resp200TemplateW : Response :=
  { statusCode := 200,
    body := Body.json (Json.obj [("data", sampleTemplateJson)]) }

theorem headerGet_setHeader_self (hs : List (String × String)) (k v : String) :
    headerGet (setHeader hs k v) k = some v := by
  simp [headerGet, setHeader, List.find?]

theorem find?_filter_ne (hs : List (String × String)) (k k2 : String)
    (h : k2 ≠ k) :
    (hs.filter (fun p => p.1 != k)).find? (fun p => p.1 == k2)
      = hs.find? (fun p => p.1 == k2) := by
  have hk : (k == k2) = false := by
    simp
    exact fun hh => h hh.symm
  induction hs with
  | nil => rfl
  | cons p t ih =>
    by_cases hpk : p.1 = k
    · simp [List.filter_cons, List.find?_cons, hpk, hk, ih]
    · by_cases hp2 : p.1 = k2
      · simp [List.filter_cons, List.find?_cons, hpk, hp2, h, ih]
      · simp [List.filter_cons, List.find?_cons, hpk, hp2, ih]

theorem headerGet_setHeader_other (hs : List (String × String))
    (k v k2 : String) (h : k2 ≠ k) :
    headerGet (setHeader hs k v) k2 = headerGet hs k2 := by
  have hk : (k == k2) = false := by
    simp
    exact fun hh => h hh.symm
  simp [headerGet, setHeader, List.find?_cons, hk, find?_filter_ne hs k k2 h]

theorem strBytes_append (a b : String) :
    strBytes (a ++ b) = strBytes a ++ strBytes b := by
  simp [strBytes, String.data_append]

theorem strConcat_append (l1 l2 : List String) :
    strConcat (l1 ++ l2) = strConcat l1 ++ strConcat l2 := by
  induction l1 with
  | nil => simp [strConcat]
  | cons h t ih => simp [strConcat, ih, String.append_assoc]

theorem queryEscape_append (a b : String) :
    queryEscape (a ++ b) = queryEscape a ++ queryEscape b := by
  simp [queryEscape, strBytes_append, strConcat_append]

theorem containsSubList_nil_needle (t : List Char) :
    containsSubList [] t = true := by
  cases t <;> simp [containsSubList, List.isPrefixOf]

theorem containsSubList_append_left (n : List Char) :
    ∀ (h t : List Char), containsSubList n h = true →
      containsSubList n (h ++ t) = true := by
  intro h
  induction h with
  | nil =>
    intro t hc
    simp [containsSubList] at hc
    simp [hc, containsSubList_nil_needle]
  | cons c hh ih =>
    intro t hc
    simp [containsSubList] at hc ⊢
    cases hc with
    | inl hp =>
      exact Or.inl (hp.trans (List.prefix_append (c :: hh) t))
    | inr hr => exact Or.inr (ih t hr)

theorem containsStr_append_left (a b n : String)
    (h : containsStr a n = true) : containsStr (a ++ b) n = true := by
  unfold containsStr at h ⊢
  rw [String.data_append]
  exact containsSubList_append_left _ _ _ h

theorem dispatched_auth_header (c : Client) (req : Request) :
    headerGet (dispatchedRequest c req).headers "Authorization"
      = some ("Basic " ++ c.authToken) := by
  show headerGet (setHeader (setHeader (setHeader req.headers
      "Authorization" ("Basic " ++ c.authToken))
      "Content-Type" "application/json") "Accept" "application/json")
      "Authorization" = some ("Basic " ++ c.authToken)
  rw [headerGet_setHeader_other _ _ _ _ (by decide),
      headerGet_setHeader_other _ _ _ _ (by decide),
      headerGet_setHeader_self]

theorem dispatched_content_type_header (c : Client) (req : Request) :
    headerGet (dispatchedRequest c req).headers "Content-Type"
      = some "application/json" := by
  show headerGet (setHeader (setHeader (setHeader req.headers
      "Authorization" ("Basic " ++ c.authToken))
      "Content-Type" "application/json") "Accept" "application/json")
      "Content-Type" = some "application/json"
  rw [headerGet_setHeader_other _ _ _ _ (by decide),
      headerGet_setHeader_self]

theorem dispatched_accept_header (c : Client) (req : Request) :
    headerGet (dispatchedRequest c req).headers "Accept"
      = some "application/json" := by
  show headerGet (setHeader (setHeader (setHeader req.headers
      "Authorization" ("Basic " ++ c.authToken))
      "Content-Type" "application/json") "Accept" "application/json")
      "Accept" = some "application/json"
  rw [headerGet_setHeader_self]

theorem dispatched_other_header (c : Client) (req : Request) (k : String)
    (h1 : k ≠ "Authorization") (h2 : k ≠ "Content-Type")
    (h3 : k ≠ "Accept") :
    headerGet (dispatchedRequest c req).headers k
      = headerGet req.headers k := by
  show headerGet (setHeader (setHeader (setHeader req.headers
      "Authorization" ("Basic " ++ c.authToken))
      "Content-Type" "application/json") "Accept" "application/json")
      k = headerGet req.headers k
  rw [headerGet_setHeader_other _ _ _ _ h3,
      headerGet_setHeader_other _ _ _ _ h2,
      headerGet_setHeader_other _ _ _ _ h1]

/-! ### Claim theorems -/

/-- C1: for every request passed to `Client.Do`, the dispatcher sets
exactly three headers — Authorization to `"Basic "` followed by the
client's stored token, Content-Type and Accept to `application/json` —
leaves every other header and the request's method, URL and body
unchanged, and returns the underlying transport's response and error
verbatim (the result *is* one application of the transport: no retry, no
response inspection). -/
theorem dispatcher_sets_exactly_three_headers (c : Client) (req : Request) :
    c.Do req = c.HTTPClient (dispatchedRequest c req)
    ∧ (dispatchedRequest c req).method = req.method
    ∧ (dispatchedRequest c req).url = req.url
    ∧ (dispatchedRequest c req).body = req.body
    ∧ headerGet (dispatchedRequest c req).headers "Authorization"
        = some ("Basic " ++ c.authToken)
    ∧ headerGet (dispatchedRequest c req).headers "Content-Type"
        = some "application/json"
    ∧ headerGet (dispatchedRequest c req).headers "Accept"
        = some "application/json"
    ∧ ∀ k, k ≠ "Authorization" → k ≠ "Content-Type" → k ≠ "Accept" →
        headerGet (dispatchedRequest c req).headers k
          = headerGet req.headers k :=
  ⟨rfl, rfl, rfl, rfl, dispatched_auth_header c req,
   dispatched_content_type_header c req, dispatched_accept_header c req,
   fun k h1 h2 h3 => dispatched_other_header c req k h1 h2 h3⟩

/-- Witness for C1 at a concrete client and request, discharging the
`k ∉ {Authorization, Content-Type, Accept}` hypotheses at `"X-Test"`. -/
theorem dispatcher_sets_exactly_three_headers_witness :
    headerGet (dispatchedRequest clientW reqW).headers "X-Test"
      = headerGet reqW.headers "X-Test"
    ∧ headerGet (dispatchedRequest clientW reqW).headers "Authorization"
      = some ("Basic " ++ clientW.authToken) :=
  ⟨(dispatcher_sets_exactly_three_headers clientW reqW).2.2.2.2.2.2.2
      "X-Test" (by decide) (by decide) (by decide),
   (dispatcher_sets_exactly_three_headers clientW reqW).2.2.2.2.1⟩

/-- C2: `NewClient` stores `base64(token ++ "|")` (computed once, at
construction — in this pure embedding the client record is immutable and
no operation returns a modified client), and every dispatch through
`Client.Do` reuses the *stored* `authToken` verbatim in the
Authorization header, for an arbitrary stored value: no operation
recomputes it from the raw token (which no operation even receives). -/
theorem newclient_token_derived_once (token org : String)
    (transport : Request → Except String Response) :
    (NewClient token org transport).authToken
        = base64Encode (strBytes (token ++ "|"))
    ∧ (NewClient token org transport).OrganizationId = org
    ∧ ∀ (c : Client) (req : Request),
        c.Do req = c.HTTPClient (dispatchedRequest c req)
        ∧ headerGet (dispatchedRequest c req).headers "Authorization"
            = some ("Basic " ++ c.authToken) :=
  ⟨rfl, rfl, fun c req => ⟨rfl, dispatched_auth_header c req⟩⟩

/-- C3: for every `IssueBadge` response — status 201 decodes the
`data` envelope and returns its `BadgeInfo` with nil error; status 422 is
detected before the 201 check (its output is fixed regardless of body and
never the generic message); every other status yields the generic error,
which contains `"API request failed"` and the numeric status code, with a
zero-value `BadgeInfo`. -/
theorem issue_badge_status_dispatch (resp : Response)
    (tok org tid em fn ln ts : String) :
    (∀ r, resp.statusCode = 201 →
        decodeIssueBadgeResponse resp.body = Except.ok r →
        IssueBadge ⟨fun _ => Except.ok resp, tok, org⟩ tid em fn ln ts
          = (r.Data, none, some { read := true, closed := true }))
    ∧ (resp.statusCode = 422 →
        IssueBadge ⟨fun _ => Except.ok resp, tok, org⟩ tid em fn ln ts
          = (BadgeInfo.zero, some ErrBadgeAlreadyIssued,
              some { read := false, closed := true }))
    ∧ (resp.statusCode ≠ 201 → resp.statusCode ≠ 422 →
        IssueBadge ⟨fun _ => Except.ok resp, tok, org⟩ tid em fn ln ts
          = (BadgeInfo.zero,
              some ("[credly.IssueBadge] API request failed with status code: "
                ++ toString resp.statusCode),
              some { read := false, closed := true })
        ∧ (∃ pre post,
            "[credly.IssueBadge] API request failed with status code: "
                ++ toString resp.statusCode
              = pre ++ "API request failed" ++ post)
        ∧ (∃ a b,
            "[credly.IssueBadge] API request failed with status code: "
                ++ toString resp.statusCode
              = a ++ toString resp.statusCode ++ b)) := by
  refine ⟨?_, ?_, ?_⟩
  · intro r h201 hdec
    simp [IssueBadge, Client.Do, issueBadgeHandle, h201, hdec]
  · intro h422
    simp [IssueBadge, Client.Do, issueBadgeHandle, h422]
  · intro h201 h422
    refine ⟨by simp [IssueBadge, Client.Do, issueBadgeHandle, h201, h422],
      ⟨"[credly.IssueBadge] ",
       " with status code: " ++ toString resp.statusCode, ?_⟩,
      ⟨"[credly.IssueBadge] API request failed with status code: ", "",
       (String.append_empty _).symm⟩⟩
    show ("[credly.IssueBadge] " ++ "API request failed"
        ++ " with status code: ") ++ toString resp.statusCode
      = ("[credly.IssueBadge] " ++ "API request failed")
        ++ (" with status code: " ++ toString resp.statusCode)
    rw [String.append_assoc]

/-- Witness for C3 at concrete 201 and 500 responses. -/
theorem issue_badge_status_dispatch_witness :
    IssueBadge (constClient resp201W) "template-123" "test@example.com"
        "John" "Doe" "2024-01-01 00:00:00 +0000"
      = (sampleBadge, none, some { read := true, closed := true })
    ∧ IssueBadge (constClient resp500W) "template-123" "test@example.com"
        "John" "Doe" "2024-01-01 00:00:00 +0000"
      = (BadgeInfo.zero,
          some "[credly.IssueBadge] API request failed with status code: 500",
          some { read := false, closed := true }) :=
  ⟨(issue_badge_status_dispatch resp201W "tok123" "org-1" "template-123"
      "test@example.com" "John" "Doe" "2024-01-01 00:00:00 +0000").1
      ⟨sampleBadge⟩ rfl rfl,
   ((issue_badge_status_dispatch resp500W "tok123" "org-1" "template-123"
      "test@example.com" "John" "Doe" "2024-01-01 00:00:00 +0000").2.2
      (by decide) (by decide)).1⟩

/-- C4: a 422 response to `IssueBadge`, regardless of body, yields a
zero-value `BadgeInfo` and an error whose text is exactly
`"User already has this badge"` (= `ErrBadgeAlreadyIssued`), which can
never coincide with a generic API-failure message. -/
theorem issue_badge_422_exact_error (resp : Response)
    (tok org tid em fn ln ts : String) (h : resp.statusCode = 422) :
    IssueBadge ⟨fun _ => Except.ok resp, tok, org⟩ tid em fn ln ts
      = (BadgeInfo.zero, some "User already has this badge",
          some { read := false, closed := true })
    ∧ ErrBadgeAlreadyIssued = "User already has this badge"
    ∧ ∀ s : Nat, "User already has this badge"
        ≠ "[credly.IssueBadge] API request failed with status code: "
            ++ toString s := by
  refine ⟨?_, rfl, ?_⟩
  · simp [IssueBadge, Client.Do, issueBadgeHandle, h, ErrBadgeAlreadyIssued]
  · intro s hEq
    have hlen := congrArg String.length hEq
    rw [String.length_append] at hlen
    have h1 : ("User already has this badge" : String).length = 27 := rfl
    have h2 : ("[credly.IssueBadge] API request failed with status code: "
        : String).length = 57 := rfl
    rw [h1, h2] at hlen
    omega

/-- Witness for C4 at a concrete 422 response (empty-object body). -/
theorem issue_badge_422_exact_error_witness :
    IssueBadge (constClient resp422W) "template-123" "test@example.com"
        "John" "Doe" "2024-01-01 00:00:00 +0000"
      = (BadgeInfo.zero, some "User already has this badge",
          some { read := false, closed := true }) :=
  (issue_badge_422_exact_error resp422W "tok123" "org-1" "template-123"
    "test@example.com" "John" "Doe" "2024-01-01 00:00:00 +0000" rfl).1

/-- C5: `GetBadges` builds its URL as the badges path plus
`?filter=recipient_email_all::` + escaped email; with a non-empty
collections list it appends the URL-escaping of the one string
`"|badge_templates[reporting_tags]::" ++ comma-join(collections)`, so the
pipe combining the two filter terms appears escaped (`%7C`) inside that
single escaped query value; with no collections only the email filter is
present. -/
theorem get_badges_url_filter (c : Client) (email : String)
    (collections : List String) :
    getBadgesUrl c email []
      = "https://api.credly.com/v1/organizations/" ++ c.OrganizationId
        ++ "/badges" ++ "?filter=recipient_email_all::" ++ queryEscape email
    ∧ (collections ≠ [] →
        getBadgesUrl c email collections
          = "https://api.credly.com/v1/organizations/" ++ c.OrganizationId
            ++ "/badges" ++ "?filter=recipient_email_all::"
            ++ queryEscape email
            ++ queryEscape ("|badge_templates[reporting_tags]::"
                ++ String.intercalate "," collections))
    ∧ ∀ s, queryEscape ("|badge_templates[reporting_tags]::" ++ s)
        = "%7Cbadge_templates%5Breporting_tags%5D%3A%3A" ++ queryEscape s := by
  refine ⟨by simp [getBadgesUrl], ?_, ?_⟩
  · intro h
    have hl : 0 < collections.length := List.length_pos.mpr h
    simp [getBadgesUrl, hl]
  · intro s
    rw [queryEscape_append]
    rfl

set_option maxRecDepth 4000 in
/-- Witness for C5 with collections `["c1", "c2"]`: the two filter terms
are joined by an escaped pipe and the comma arrives escaped, all inside
one query value. -/
theorem get_badges_url_filter_witness :
    getBadgesUrl clientW "test@example.com" ["c1", "c2"]
      = "https://api.credly.com/v1/organizations/org-1/badges?filter=recipient_email_all::test%40example.com%7Cbadge_templates%5Breporting_tags%5D%3A%3Ac1%2Cc2" := by
  rw [(get_badges_url_filter clientW "test@example.com" ["c1", "c2"]).2.1
    (by decide)]
  rfl

/-- C6: `GetBadge` interpolates email and badge id into the URL with no
escaping, never checks the status code, decodes the list envelope and
returns its first element; an empty decoded list yields a zero
`BadgeInfo` and nil error — all regardless of the response status (the
response here is arbitrary and its status is never constrained). -/
theorem get_badge_no_status_check (resp : Response)
    (tok org email badgeId : String) :
    getBadgeUrl ⟨fun _ => Except.ok resp, tok, org⟩ email badgeId
      = "https://api.credly.com/v1/organizations/" ++ org ++ "/badges"
        ++ "?filter=recipient_email_all::" ++ email
        ++ "|badge_template_id::" ++ badgeId
    ∧ (∀ r, decodeGetBadgesResponse resp.body = Except.ok r → r.Data = [] →
        GetBadge ⟨fun _ => Except.ok resp, tok, org⟩ email badgeId
          = (BadgeInfo.zero, none, some { read := true, closed := true }))
    ∧ (∀ r x xs, decodeGetBadgesResponse resp.body = Except.ok r →
        r.Data = x :: xs →
        GetBadge ⟨fun _ => Except.ok resp, tok, org⟩ email badgeId
          = (x, none, some { read := true, closed := true })) := by
  refine ⟨rfl, ?_, ?_⟩
  · intro r hdec hnil
    simp [GetBadge, Client.Do, getBadgeHandle, hdec, hnil]
  · intro r x xs hdec hcons
    simp [GetBadge, Client.Do, getBadgeHandle, hdec, hcons]

/-- Witness for C6: an empty list under status 404 yields the zero badge
and nil error; a one-element list under status 500 yields that element. -/
theorem get_badge_no_status_check_witness :
    GetBadge (constClient resp404EmptyW) "test@example.com" "badge-123"
      = (BadgeInfo.zero, none, some { read := true, closed := true })
    ∧ GetBadge (constClient resp500ListW) "test@example.com" "badge-123"
      = (sampleBadge, none, some { read := true, closed := true }) :=
  ⟨(get_badge_no_status_check resp404EmptyW "tok123" "org-1"
      "test@example.com" "badge-123").2.1 ⟨[]⟩ rfl rfl,
   (get_badge_no_status_check resp500ListW "tok123" "org-1"
      "test@example.com" "badge-123").2.2 ⟨[sampleBadge]⟩ sampleBadge []
      rfl rfl⟩

/-- C7 counterexample: with a malformed 200-status body, `GetBadge`
returns the bare message `"Failed to parse JSON data: ..."`, which does
not contain the operation name `GetBadge` — refuting "always includes
the calling operation's name". -/
theorem get_badge_parse_error_lacks_operation_name :
    (GetBadge (constClient respMalformedW) "test@example.com" "badge-123").2.1
      = some "Failed to parse JSON data: invalid character"
    ∧ containsStr "Failed to parse JSON data: invalid character" "GetBadge"
        = false :=
  ⟨rfl, rfl⟩
/-- C7 amended: on a malformed body each operation wraps the parse error
in a `"Failed to parse JSON data: "` message and never panics (all
embedded operations are total); `IssueBadge`, `GetBadges`,
`GetBadgeTemplate` and `GetBadgeTemplates` prefix it with their
`[credly.<op>]` name, but `GetBadge` emits the message with no operation
name. -/
theorem parse_failure_error_texts (resp : Response) (m : String)
    (tok org tid em fn ln ts email badgeId tplId : String)
    (cols : List String) (hm : resp.body = Body.malformed m) :
    (resp.statusCode = 201 →
        IssueBadge ⟨fun _ => Except.ok resp, tok, org⟩ tid em fn ln ts
          = (BadgeInfo.zero,
              some ("[credly.IssueBadge] Failed to parse JSON data: " ++ m),
              some { read := true, closed := true })
        ∧ containsStr
            ("[credly.IssueBadge] Failed to parse JSON data: " ++ m)
            "IssueBadge" = true)
    ∧ (resp.statusCode = 200 →
        GetBadges ⟨fun _ => Except.ok resp, tok, org⟩ email cols
          = ([], some ("[credly.GetBadges] Failed to parse JSON data: " ++ m),
              some { read := true, closed := true })
        ∧ containsStr
            ("[credly.GetBadges] Failed to parse JSON data: " ++ m)
            "GetBadges" = true)
    ∧ (GetBadge ⟨fun _ => Except.ok resp, tok, org⟩ email badgeId
          = (BadgeInfo.zero, some ("Failed to parse JSON data: " ++ m),
              some { read := true, closed := true }))
    ∧ (resp.statusCode = 200 →
        GetBadgeTemplate ⟨fun _ => Except.ok resp, tok, org⟩ tplId
          = (BadgeTemplate.zero,
              some ("[credly.GetBadgeTemplate] Failed to parse JSON data: "
                ++ m),
              some { read := true, closed := true })
        ∧ containsStr
            ("[credly.GetBadgeTemplate] Failed to parse JSON data: " ++ m)
            "GetBadgeTemplate" = true)
    ∧ (resp.statusCode = 200 →
        GetBadgeTemplates ⟨fun _ => Except.ok resp, tok, org⟩
          = ([],
              some ("[credly.GetBadgeTemplates] Failed to parse JSON data: "
                ++ m),
              some { read := true, closed := true })
        ∧ containsStr
            ("[credly.GetBadgeTemplates] Failed to parse JSON data: " ++ m)
            "GetBadgeTemplates" = true) := by
  refine ⟨?_, ?_, ?_, ?_, ?_⟩
  · intro h
    refine ⟨?_, containsStr_append_left _ m _ rfl⟩
    simp [IssueBadge, Client.Do, issueBadgeHandle, h, hm,
      decodeIssueBadgeResponse, decodeEnvelope, Except.map]
  · intro h
    refine ⟨?_, containsStr_append_left _ m _ rfl⟩
    simp [GetBadges, Client.Do, getBadgesHandle, h, hm,
      decodeGetBadgesResponse, decodeEnvelope, Except.map]
  · simp [GetBadge, Client.Do, getBadgeHandle, hm,
      decodeGetBadgesResponse, decodeEnvelope, Except.map]
  · intro h
    refine ⟨?_, containsStr_append_left _ m _ rfl⟩
    simp [GetBadgeTemplate, Client.Do, getBadgeTemplateHandle, h, hm,
      decodeGetBadgeTemplateResponse, decodeEnvelope, Except.map]
  · intro h
    refine ⟨?_, containsStr_append_left _ m _ rfl⟩
    simp [GetBadgeTemplates, Client.Do, getBadgeTemplatesHandle, h, hm,
      decodeGetBadgeTemplatesResponse, decodeEnvelope, Except.map]

theorem parse_failure_error_texts_witness :
    IssueBadge (constClient respMalformed201W) "template-123"
        "test@example.com" "John" "Doe" "2024-01-01 00:00:00 +0000"
      = (BadgeInfo.zero,
          some "[credly.IssueBadge] Failed to parse JSON data: invalid character",
          some { read := true, closed := true })
    ∧ GetBadges (constClient respMalformedW) "test@example.com" []
      = ([], some "[credly.GetBadges] Failed to parse JSON data: invalid character",
          some { read := true, closed := true })
    ∧ GetBadge (constClient respMalformedW) "test@example.com" "badge-123"
      = (BadgeInfo.zero,
          some "Failed to parse JSON data: invalid character",
          some { read := true, closed := true })
    ∧ GetBadgeTemplate (constClient respMalformedW) "template-123"
      = (BadgeTemplate.zero,
          some "[credly.GetBadgeTemplate] Failed to parse JSON data: invalid character",
          some { read := true, closed := true })
    ∧ GetBadgeTemplates (constClient respMalformedW)
      = ([], some "[credly.GetBadgeTemplates] Failed to parse JSON data: invalid character",
          some { read := true, closed := true }) :=
  ⟨((parse_failure_error_texts respMalformed201W "invalid character"
      "tok123" "org-1" "template-123" "test@example.com" "John" "Doe"
      "2024-01-01 00:00:00 +0000" "test@example.com" "badge-123"
      "template-123" [] rfl).1 rfl).1,
   ((parse_failure_error_texts respMalformedW "invalid character"
      "tok123" "org-1" "template-123" "test@example.com" "John" "Doe"
      "2024-01-01 00:00:00 +0000" "test@example.com" "badge-123"
      "template-123" [] rfl).2.1 rfl).1,
   (parse_failure_error_texts respMalformedW "invalid character"
      "tok123" "org-1" "template-123" "test@example.com" "John" "Doe"
      "2024-01-01 00:00:00 +0000" "test@example.com" "badge-123"
      "template-123" [] rfl).2.2.1,
   ((parse_failure_error_texts respMalformedW "invalid character"
      "tok123" "org-1" "template-123" "test@example.com" "John" "Doe"
      "2024-01-01 00:00:00 +0000" "test@example.com" "badge-123"
      "template-123" [] rfl).2.2.2.1 rfl).1,
   ((parse_failure_error_texts respMalformedW "invalid character"
      "tok123" "org-1" "template-123" "test@example.com" "John" "Doe"
      "2024-01-01 00:00:00 +0000" "test@example.com" "badge-123"
      "template-123" [] rfl).2.2.2.2 rfl).1⟩

/-- C8: each status-checking read operation (`GetBadges`,
`GetBadgeTemplate`, `GetBadgeTemplates`) decodes its envelope on status
200 and returns the decoded record or list unmodified (hence in original
order) with nil error; any other status yields an error whose text embeds
that numeric status code, with a zero-value result. -/
theorem read_ops_status_handling (resp : Response)
    (tok org email tplId : String) (cols : List String) :
    ((resp.statusCode = 200 → ∀ r,
        decodeGetBadgesResponse resp.body = Except.ok r →
        GetBadges ⟨fun _ => Except.ok resp, tok, org⟩ email cols
          = (r.Data, none, some { read := true, closed := true }))
      ∧ (resp.statusCode ≠ 200 →
        GetBadges ⟨fun _ => Except.ok resp, tok, org⟩ email cols
          = ([],
              some ("[credly.GetBadges] API request failed with status code: "
                ++ toString resp.statusCode),
              some { read := false, closed := true })))
    ∧ ((resp.statusCode = 200 → ∀ r,
        decodeGetBadgeTemplateResponse resp.body = Except.ok r →
        GetBadgeTemplate ⟨fun _ => Except.ok resp, tok, org⟩ tplId
          = (r.Data, none, some { read := true, closed := true }))
      ∧ (resp.statusCode ≠ 200 →
        GetBadgeTemplate ⟨fun _ => Except.ok resp, tok, org⟩ tplId
          = (BadgeTemplate.zero,
              some ("[credly.GetBadgeTemplate] API request failed with status code: "
                ++ toString resp.statusCode),
              some { read := false, closed := true })))
    ∧ ((resp.statusCode = 200 → ∀ r,
        decodeGetBadgeTemplatesResponse resp.body = Except.ok r →
        GetBadgeTemplates ⟨fun _ => Except.ok resp, tok, org⟩
          = (r.Data, none, some { read := true, closed := true }))
      ∧ (resp.statusCode ≠ 200 →
        GetBadgeTemplates ⟨fun _ => Except.ok resp, tok, org⟩
          = ([],
              some ("[credly.GetBadgeTemplates] API request failed with status code: "
                ++ toString resp.statusCode),
              some { read := false, closed := true })))
    ∧ (∀ s : Nat, ∃ a b,
        "API request failed with status code: " ++ toString s
          = a ++ toString s ++ b) := by
  refine ⟨⟨?_, ?_⟩, ⟨?_, ?_⟩, ⟨?_, ?_⟩, ?_⟩
  · intro h r hdec
    simp [GetBadges, Client.Do, getBadgesHandle, h, hdec]
  · intro h
    simp [GetBadges, Client.Do, getBadgesHandle, h]
  · intro h r hdec
    simp [GetBadgeTemplate, Client.Do, getBadgeTemplateHandle, h, hdec]
  · intro h
    simp [GetBadgeTemplate, Client.Do, getBadgeTemplateHandle, h]
  · intro h r hdec
    simp [GetBadgeTemplates, Client.Do, getBadgeTemplatesHandle, h, hdec]
  · intro h
    simp [GetBadgeTemplates, Client.Do, getBadgeTemplatesHandle, h]
  · intro s
    exact ⟨"API request failed with status code: ", "",
      (String.append_empty _).symm⟩


/-- Witness for C8: a two-element badge list and a template record pass
through unmodified on status 200; status 500 on the templates list gives
the generic error. -/
theorem read_ops_status_handling_witness :
    GetBadges (constClient resp200BadgesW) "test@example.com" []
      = ([sampleBadge, sampleBadge2], none,
          some { read := true, closed := true })
    ∧ GetBadgeTemplate (constClient resp200TemplateW) "template-123"
      = (sampleTemplate, none, some { read := true, closed := true })
    ∧ GetBadgeTemplates (constClient resp500W)
      = ([],
          some "[credly.GetBadgeTemplates] API request failed with status code: 500",
          some { read := false, closed := true }) :=
  ⟨(read_ops_status_handling resp200BadgesW "tok123" "org-1"
      "test@example.com" "template-123" []).1.1 rfl
      ⟨[sampleBadge, sampleBadge2]⟩ rfl,
   (read_ops_status_handling resp200TemplateW "tok123" "org-1"
      "test@example.com" "template-123" []).2.1.1 rfl
      ⟨sampleTemplate⟩ rfl,
   (read_ops_status_handling resp500W "tok123" "org-1"
      "test@example.com" "template-123" []).2.2.1.2 (by decide)⟩

theorem issueBadgeHandle_closed (r : Except String Response) (t : BodyTrace)
    (h : (issueBadgeHandle r).2.2 = some t) : t.closed = true := by
  match r with
  | Except.error e => simp [issueBadgeHandle] at h
  | Except.ok resp =>
    by_cases h422 : resp.statusCode = 422
    · simp [issueBadgeHandle, h422] at h
      rw [← h]
    · by_cases h201 : resp.statusCode = 201
      · rcases hd : decodeIssueBadgeResponse resp.body with e | rr
        · simp [issueBadgeHandle, h422, h201, hd] at h
          rw [← h]
        · simp [issueBadgeHandle, h422, h201, hd] at h
          rw [← h]
      · simp [issueBadgeHandle, h422, h201] at h
        rw [← h]

theorem getBadgesHandle_closed (r : Except String Response) (t : BodyTrace)
    (h : (getBadgesHandle r).2.2 = some t) : t.closed = true := by
  match r with
  | Except.error e => simp [getBadgesHandle] at h
  | Except.ok resp =>
    by_cases h200 : resp.statusCode = 200
    · rcases hd : decodeGetBadgesResponse resp.body with e | rr
      · simp [getBadgesHandle, h200, hd] at h
        rw [← h]
      · simp [getBadgesHandle, h200, hd] at h
        rw [← h]
    · simp [getBadgesHandle, h200] at h
      rw [← h]

theorem getBadgeHandle_closed (r : Except String Response) (t : BodyTrace)
    (h : (getBadgeHandle r).2.2 = some t) : t.closed = true := by
  match r with
  | Except.error e => simp [getBadgeHandle] at h
  | Except.ok resp =>
    rcases hd : decodeGetBadgesResponse resp.body with e | rr
    · simp [getBadgeHandle, hd] at h
      rw [← h]
    · rcases hdata : rr.Data with _ | ⟨x, xs⟩
      · simp [getBadgeHandle, hd, hdata] at h
        rw [← h]
      · simp [getBadgeHandle, hd, hdata] at h
        rw [← h]

theorem getBadgeTemplateHandle_closed (r : Except String Response)
    (t : BodyTrace) (h : (getBadgeTemplateHandle r).2.2 = some t) :
    t.closed = true := by
  match r with
  | Except.error e => simp [getBadgeTemplateHandle] at h
  | Except.ok resp =>
    by_cases h200 : resp.statusCode = 200
    · rcases hd : decodeGetBadgeTemplateResponse resp.body with e | rr
      · simp [getBadgeTemplateHandle, h200, hd] at h
        rw [← h]
      · simp [getBadgeTemplateHandle, h200, hd] at h
        rw [← h]
    · simp [getBadgeTemplateHandle, h200] at h
      rw [← h]

theorem getBadgeTemplatesHandle_closed (r : Except String Response)
    (t : BodyTrace) (h : (getBadgeTemplatesHandle r).2.2 = some t) :
    t.closed = true := by
  match r with
  | Except.error e => simp [getBadgeTemplatesHandle] at h
  | Except.ok resp =>
    by_cases h200 : resp.statusCode = 200
    · rcases hd : decodeGetBadgeTemplatesResponse resp.body with e | rr
      · simp [getBadgeTemplatesHandle, h200, hd] at h
        rw [← h]
      · simp [getBadgeTemplatesHandle, h200, hd] at h
        rw [← h]
    · simp [getBadgeTemplatesHandle, h200] at h
      rw [← h]

/-- C9 counterexample: on a non-200 status, `GetBadges` exits with the
body closed (the deferred close ran) but never read — so the body is not
consumed in full on this exit path, refuting "consumed in full ... on
every exit path". -/
theorem body_not_consumed_on_status_error :
    GetBadges (constClient resp500W) "test@example.com" []
      = ([],
          some "[credly.GetBadges] API request failed with status code: 500",
          some { read := false, closed := true })
    ∧ (GetBadges (constClient resp500W) "test@example.com" []).2.2
        ≠ some { read := true, closed := true } :=
  ⟨rfl, by decide⟩

/-- C9 amended: once the dispatcher returns a response, every exit path
of every operation closes the response body (the deferred
`resp.Body.Close()`); but the body is read only on decode paths — on a
non-success status it is never read, hence not consumed in full there. -/
theorem body_closed_on_every_path
    (transport : Request → Except String Response)
    (tok org tid em fn ln ts email badgeId tplId : String)
    (cols : List String) :
    (∀ t, (IssueBadge ⟨transport, tok, org⟩ tid em fn ln ts).2.2 = some t →
        t.closed = true)
    ∧ (∀ t, (GetBadges ⟨transport, tok, org⟩ email cols).2.2 = some t →
        t.closed = true)
    ∧ (∀ t, (GetBadge ⟨transport, tok, org⟩ email badgeId).2.2 = some t →
        t.closed = true)
    ∧ (∀ t, (GetBadgeTemplate ⟨transport, tok, org⟩ tplId).2.2 = some t →
        t.closed = true)
    ∧ (∀ t, (GetBadgeTemplates ⟨transport, tok, org⟩).2.2 = some t →
        t.closed = true)
    ∧ (∀ resp : Response, resp.statusCode ≠ 200 →
        (GetBadges ⟨fun _ => Except.ok resp, tok, org⟩ email cols).2.2
          = some { read := false, closed := true }) :=
  ⟨fun t h => issueBadgeHandle_closed _ t h,
   fun t h => getBadgesHandle_closed _ t h,
   fun t h => getBadgeHandle_closed _ t h,
   fun t h => getBadgeTemplateHandle_closed _ t h,
   fun t h => getBadgeTemplatesHandle_closed _ t h,
   fun resp hne => by simp [GetBadges, Client.Do, getBadgesHandle, hne]⟩

/-- Witness for C9 amended, at a concrete 500 response to `GetBadges`. -/
theorem body_closed_on_every_path_witness :
    ({ read := false, closed := true } : BodyTrace).closed = true
    ∧ (GetBadges (constClient resp500W) "test@example.com" []).2.2
        = some { read := false, closed := true } :=
  ⟨(body_closed_on_every_path (fun _ => Except.ok resp500W) "tok123"
      "org-1" "template-123" "test@example.com" "John" "Doe"
      "2024-01-01 00:00:00 +0000" "test@example.com" "badge-123"
      "template-123" []).2.1 { read := false, closed := true } rfl,
   (body_closed_on_every_path (fun _ => Except.ok resp500W) "tok123"
      "org-1" "template-123" "test@example.com" "John" "Doe"
      "2024-01-01 00:00:00 +0000" "test@example.com" "badge-123"
      "template-123" []).2.2.2.2.2 resp500W (by decide)⟩

theorem issueBadgeHandle_zero_on_error (r : Except String Response)
    (h : (issueBadgeHandle r).2.1 ≠ none) :
    (issueBadgeHandle r).1 = BadgeInfo.zero := by
  match r with
  | Except.error e => rfl
  | Except.ok resp =>
    by_cases h422 : resp.statusCode = 422
    · simp [issueBadgeHandle, h422]
    · by_cases h201 : resp.statusCode = 201
      · rcases hd : decodeIssueBadgeResponse resp.body with e | rr
        · simp [issueBadgeHandle, h422, h201, hd]
        · exact absurd (by simp [issueBadgeHandle, h422, h201, hd]) h
      · simp [issueBadgeHandle, h422, h201]

theorem getBadgesHandle_zero_on_error (r : Except String Response)
    (h : (getBadgesHandle r).2.1 ≠ none) :
    (getBadgesHandle r).1 = [] := by
  match r with
  | Except.error e => rfl
  | Except.ok resp =>
    by_cases h200 : resp.statusCode = 200
    · rcases hd : decodeGetBadgesResponse resp.body with e | rr
      · simp [getBadgesHandle, h200, hd]
      · exact absurd (by simp [getBadgesHandle, h200, hd]) h
    · simp [getBadgesHandle, h200]

theorem getBadgeHandle_zero_on_error (r : Except String Response)
    (h : (getBadgeHandle r).2.1 ≠ none) :
    (getBadgeHandle r).1 = BadgeInfo.zero := by
  match r with
  | Except.error e => rfl
  | Except.ok resp =>
    rcases hd : decodeGetBadgesResponse resp.body with e | rr
    · simp [getBadgeHandle, hd]
    · rcases hdata : rr.Data with _ | ⟨x, xs⟩
      · exact absurd (by simp [getBadgeHandle, hd, hdata]) h
      · exact absurd (by simp [getBadgeHandle, hd, hdata]) h

theorem getBadgeTemplateHandle_zero_on_error (r : Except String Response)
    (h : (getBadgeTemplateHandle r).2.1 ≠ none) :
    (getBadgeTemplateHandle r).1 = BadgeTemplate.zero := by
  match r with
  | Except.error e => rfl
  | Except.ok resp =>
    by_cases h200 : resp.statusCode = 200
    · rcases hd : decodeGetBadgeTemplateResponse resp.body with e | rr
      · simp [getBadgeTemplateHandle, h200, hd]
      · exact absurd (by simp [getBadgeTemplateHandle, h200, hd]) h
    · simp [getBadgeTemplateHandle, h200]

theorem getBadgeTemplatesHandle_zero_on_error (r : Except String Response)
    (h : (getBadgeTemplatesHandle r).2.1 ≠ none) :
    (getBadgeTemplatesHandle r).1 = [] := by
  match r with
  | Except.error e => rfl
  | Except.ok resp =>
    by_cases h200 : resp.statusCode = 200
    · rcases hd : decodeGetBadgeTemplatesResponse resp.body with e | rr
      · simp [getBadgeTemplatesHandle, h200, hd]
      · exact absurd (by simp [getBadgeTemplatesHandle, h200, hd]) h
    · simp [getBadgeTemplatesHandle, h200]

/-- C10: every operation that returns a non-nil error returns the zero
value of its result type alongside it (for any transport outcome and any
response): no partially populated result ever accompanies an error. -/
theorem error_implies_zero_result
    (transport : Request → Except String Response)
    (tok org tid em fn ln ts email badgeId tplId : String)
    (cols : List String) :
    ((IssueBadge ⟨transport, tok, org⟩ tid em fn ln ts).2.1 ≠ none →
        (IssueBadge ⟨transport, tok, org⟩ tid em fn ln ts).1
          = BadgeInfo.zero)
    ∧ ((GetBadges ⟨transport, tok, org⟩ email cols).2.1 ≠ none →
        (GetBadges ⟨transport, tok, org⟩ email cols).1 = [])
    ∧ ((GetBadge ⟨transport, tok, org⟩ email badgeId).2.1 ≠ none →
        (GetBadge ⟨transport, tok, org⟩ email badgeId).1 = BadgeInfo.zero)
    ∧ ((GetBadgeTemplate ⟨transport, tok, org⟩ tplId).2.1 ≠ none →
        (GetBadgeTemplate ⟨transport, tok, org⟩ tplId).1
          = BadgeTemplate.zero)
    ∧ ((GetBadgeTemplates ⟨transport, tok, org⟩).2.1 ≠ none →
        (GetBadgeTemplates ⟨transport, tok, org⟩).1 = []) :=
  ⟨fun h => issueBadgeHandle_zero_on_error _ h,
   fun h => getBadgesHandle_zero_on_error _ h,
   fun h => getBadgeHandle_zero_on_error _ h,
   fun h => getBadgeTemplateHandle_zero_on_error _ h,
   fun h => getBadgeTemplatesHandle_zero_on_error _ h⟩

/-- Witness for C10 at a 500 response to `IssueBadge` and a malformed
body to `GetBadge`. -/
theorem error_implies_zero_result_witness :
    (IssueBadge (constClient resp500W) "template-123" "test@example.com"
        "John" "Doe" "2024-01-01 00:00:00 +0000").1 = BadgeInfo.zero
    ∧ (GetBadge (constClient respMalformedW) "test@example.com"
        "badge-123").1 = BadgeInfo.zero :=
  ⟨(error_implies_zero_result (fun _ => Except.ok resp500W) "tok123"
      "org-1" "template-123" "test@example.com" "John" "Doe"
      "2024-01-01 00:00:00 +0000" "test@example.com" "badge-123"
      "template-123" []).1 (by decide),
   (error_implies_zero_result (fun _ => Except.ok respMalformedW) "tok123"
      "org-1" "template-123" "test@example.com" "John" "Doe"
      "2024-01-01 00:00:00 +0000" "test@example.com" "badge-123"
      "template-123" []).2.2.1 (by decide)⟩
